import Mathlib

/-!
Shallow embedding of the GEOIP-COMAND-CENTER repository.

Client side (src/public/sdk.js): the rule evaluator mapping a configuration
and per-visitor facts (hostname, IP, country, bot-detection result) to a
decision outcome, together with the lookup wrappers and their fallback
values.

Server side (src/server.js): the admin-config endpoints, the public config
projection, and the configuration load/save password handling.

JavaScript objects whose fields may be absent are modelled either as
structures with Option fields (when the set of read fields is fixed) or as
association lists of key/value pairs (for the server configuration record,
which is replaced wholesale by an arbitrary JSON body on admin writes).
JavaScript numbers are modelled as rationals: the only numeric operations
in the embedded code are order comparisons, which agree with the float
comparisons on every value appearing here.  An absent details object or an
absent boolean flag is modelled as false, since every access in the source
reads flags through optional chaining or an empty-object fallback, both of
which yield a falsy value.
-/

namespace GeoIPCC

/-! ## JSON-like values and objects (server configuration record) -/

/-- A JSON value, as stored in the server configuration object. -/
inductive JVal where
  | null
  | bool (b : Bool)
  | num (q : ℚ)
  | str (s : String)
  | arr (elems : List JVal)
  | obj (fields : List (String × JVal))

/-- A JavaScript object: an association list of fields.  Earlier entries
shadow later ones for lookup. -/
abbrev JsObj := List (String × JVal)

/-- Field access: models reading a property of a JS object, none when the
property is absent (undefined). -/
def getField (o : JsObj) (k : String) : Option JVal :=
  match o with
  | [] => none
  | (k₀, v₀) :: rest => if k₀ = k then some v₀ else getField rest k

/-- Remove every binding of a key. -/
def removeField (o : JsObj) (k : String) : JsObj :=
  match o with
  | [] => []
  | (k₀, v₀) :: rest =>
      if k₀ = k then removeField rest k else (k₀, v₀) :: removeField rest k

/-- Property assignment: models writing a property of a JS object.
Assigning none models assigning undefined, which is indistinguishable from
an absent property for every read in the embedded code. -/
def setField (o : JsObj) (k : String) (v : Option JVal) : JsObj :=
  match v with
  | some x => (k, x) :: removeField o k
  | none => removeField o k

/-- JavaScript truthiness of a possibly-absent value: undefined, null,
false, 0 and the empty string are falsy. -/
def truthy : Option JVal → Bool
  | none => false
  | some JVal.null => false
  | some (JVal.bool b) => b
  | some (JVal.num q) => decide (q ≠ 0)
  | some (JVal.str s) => decide (s ≠ "")
  | some (JVal.arr _) => true
  | some (JVal.obj _) => true

/-! ## Server-side configuration handling (src/server.js) -/

/-- Models getAdminPassword in src/server.js line 14:
process.env.ADMIN_PASSWORD with the literal fallback, where an unset or
empty environment variable is falsy. -/
def getAdminPassword (env : Option String) : String :=
  match env with
  | some p => if p = "" then "cyberpunk2024" else p
  | none => "cyberpunk2024"

/-- Models loadConfig in src/server.js lines 17-27 on the success path:
the file configuration is spread and its adminPassword field overridden by
the environment-sourced password. -/
def loadConfig (fileConfig : JsObj) (env : Option String) : JsObj :=
  setField fileConfig "adminPassword" (some (JVal.str (getAdminPassword env)))

/-- Prefix test on character lists; models the JavaScript
String.prototype.startsWith call used by the admin endpoints. -/
def startsWithStr (s pre : String) : Bool :=
  pre.data.isPrefixOf s.data

/-- Models the guard authHeader?.startsWith of src/server.js lines
234-237 and 243-246: an absent header is falsy. -/
def hasBearer (auth : Option String) : Bool :=
  match auth with
  | none => false
  | some v => startsWithStr v "Bearer "

/-- An HTTP response: status code and JSON body. -/
structure ApiResponse where
  status : Nat
  body : JsObj

/-- The 401 body sent by both admin endpoints. -/
def errNoAuthBody : JsObj := [("error", JVal.str "ERR-NO-AUTH")]

/-- Models GET /api/admin/config, src/server.js lines 233-240: a bearer
check on the Authorization header, then the full stored configuration. -/
def adminConfigGet (auth : Option String) (cfg : JsObj) : ApiResponse :=
  if hasBearer auth then ⟨200, cfg⟩ else ⟨401, errNoAuthBody⟩

/-- Models POST /api/admin/config, src/server.js lines 242-259, composed
with saveConfig (lines 65-69).  Returns the response and the new stored
configuration.  The body assignment mirrors
newConfig.adminPassword = newConfig.adminPassword || oldConfig.adminPassword,
and saveConfig stamps lastUpdated with the current time. -/
def adminConfigPost (auth : Option String) (body old : JsObj) (now : String) :
    ApiResponse × JsObj :=
  if hasBearer auth then
    let merged := setField body "adminPassword"
      (if truthy (getField body "adminPassword") then getField body "adminPassword"
       else getField old "adminPassword")
    let saved := setField merged "lastUpdated" (some (JVal.str now))
    (⟨200, [("success", JVal.bool true), ("lastUpdated", JVal.str now)]⟩, saved)
  else
    (⟨401, errNoAuthBody⟩, old)

/-- The fixed field allow-list of the public config endpoint,
src/server.js lines 167-178, in source order. -/
def apiConfigKeys : List String :=
  ["botDetectionEnabled", "blockingCriteria", "allowedCountries",
   "blockedCountries", "ipBlacklist", "finalUrl", "theme",
   "allowedDomains", "allowAllDomains", "lastUpdated"]

/-- Models GET /api/config, src/server.js lines 163-182: the response
object holds exactly the allow-listed fields; a field read as undefined is
dropped by JSON serialization, hence the filterMap. -/
def apiConfig (cfg : JsObj) : JsObj :=
  apiConfigKeys.filterMap (fun k => (getField cfg k).map (fun v => (k, v)))

/-! ## Client-side rule evaluator (src/public/sdk.js) -/

/-- The detail flags of a bot-detection result.  An absent details object
or flag is modelled as all-false flags: every read in the source goes
through optional chaining or an empty-object fallback. -/
structure BotDetails where
  isBotUserAgent : Bool
  isScraperISP : Bool
  isIPAbuser : Bool
  isSuspiciousTraffic : Bool
  isDataCenterASN : Bool
deriving DecidableEq

/-- A bot-detection result.  The is_bot field of the JSON payload is never
read by the evaluator and is omitted. -/
structure BotResult where
  score : ℚ
  details : BotDetails
deriving DecidableEq

/-- The blockingCriteria object.  minScore is Option because the score
comparison in evaluateRules treats an absent minScore differently from the
default applied in getErrorCode.  Absent boolean flags are falsy, hence
modelled as false. -/
structure BlockingCriteria where
  minScore : Option ℚ
  blockBotUA : Bool
  blockScraperISP : Bool
  blockIPAbuser : Bool
  blockSuspiciousTraffic : Bool
  blockDataCenterASN : Bool
deriving DecidableEq

/-- The empty criteria object used by the fallback blockingCriteria || {}. -/
def emptyCriteria : BlockingCriteria := ⟨none, false, false, false, false, false⟩

/-- The SDK configuration fields read by evaluateRules and getErrorCode.
Fields read through optional chaining are Option. -/
structure SdkConfig where
  allowAllDomains : Bool
  allowedDomains : Option (List String)
  ipBlacklist : Option (List String)
  blockedCountries : Option (List String)
  allowedCountries : Option (List String)
  botDetectionEnabled : Bool
  blockingCriteria : Option BlockingCriteria
deriving DecidableEq

/-- Models config.blockingCriteria || {} (src/public/sdk.js lines 117 and
164). -/
def criteriaOf (c : SdkConfig) : BlockingCriteria :=
  c.blockingCriteria.getD emptyCriteria

/-- Substring test on character lists, innermost helper for the JavaScript
String.prototype.includes call. -/
def charsInfix (sub : List Char) : List Char → Bool
  | [] => sub.isEmpty
  | a :: t => sub.isPrefixOf (a :: t) || charsInfix sub t

/-- Models currentDomain.includes(d): does s contain sub as a substring. -/
def strIncludes (s sub : String) : Bool :=
  charsInfix sub.data s.data

/-- The domain-gate condition of src/public/sdk.js line 142:
not allowAllDomains, allowedDomains present and non-empty, and no listed
domain occurs as a substring of the current hostname. -/
def domainBlocked (c : SdkConfig) (host : String) : Bool :=
  !c.allowAllDomains &&
    (match c.allowedDomains with
     | none => false
     | some ds => !ds.isEmpty && !(ds.any fun d => strIncludes host d))

/-- Models config.ipBlacklist?.includes(ip) (src/public/sdk.js lines 112
and 147). -/
def ipBlacklisted (c : SdkConfig) (ip : String) : Bool :=
  match c.ipBlacklist with
  | none => false
  | some l => l.contains ip

/-- Models config.blockedCountries?.includes(country) (src/public/sdk.js
lines 113 and 152). -/
def countryBlocked (c : SdkConfig) (country : String) : Bool :=
  match c.blockedCountries with
  | none => false
  | some l => l.contains country

/-- Models config.allowedCountries?.length together with the negated
membership test (src/public/sdk.js lines 114 and 157). -/
def countryNotAllowed (c : SdkConfig) (country : String) : Bool :=
  match c.allowedCountries with
  | none => false
  | some l => !l.isEmpty && !(l.contains country)

/-- Models criteria.minScore || 0.7 of getErrorCode (src/public/sdk.js
line 124): an absent or zero minScore is falsy and yields the 0.7
default. -/
def minScoreOrDefault (crit : BlockingCriteria) : ℚ :=
  match crit.minScore with
  | some m => if m = 0 then (7 : ℚ) / 10 else m
  | none => (7 : ℚ) / 10

/-- Models getErrorCode, src/public/sdk.js lines 111-127: a secondary pass
that re-checks the IP blacklist and country rules, then the bot detail
flags in a fixed order, then the score threshold with the 0.7 default. -/
def getErrorCode (c : SdkConfig) (botResult : BotResult) (country ip : String) :
    String :=
  if ipBlacklisted c ip then "ERR-IP-BLACKLIST"
  else if countryBlocked c country then "ERR-COUNTRY-BLOCK"
  else if countryNotAllowed c country then "ERR-COUNTRY-BLOCK"
  else
    let details := botResult.details
    let crit := criteriaOf c
    if crit.blockBotUA && details.isBotUserAgent then "ERR-UA-BOT"
    else if crit.blockScraperISP && details.isScraperISP then "ERR-ISP-SCRAPER"
    else if crit.blockIPAbuser && details.isIPAbuser then "ERR-IP-ABUSER"
    else if crit.blockSuspiciousTraffic && details.isSuspiciousTraffic then
      "ERR-TRAFFIC-SUSPICIOUS"
    else if crit.blockDataCenterASN && details.isDataCenterASN then
      "ERR-ASN-DATACENTER"
    else if minScoreOrDefault crit ≤ botResult.score then "ERR-BOT-HIGH"
    else "ERR-UNKNOWN"

/-- One entry of the triggered array built inside evaluateRules
(src/public/sdk.js lines 166-172). -/
inductive Trigger where
  | score (value : ℚ)
  | botUA
  | scraperISP
  | ipAbuser
  | traffic
  | dataCenter
deriving DecidableEq

/-- Models the comparison botResult.score >= criteria.minScore of
src/public/sdk.js line 167: unlike getErrorCode, this site applies no
default, and a comparison against an absent minScore is false in
JavaScript (NaN comparison). -/
def scoreTriggerFires (crit : BlockingCriteria) (r : BotResult) : Bool :=
  match crit.minScore with
  | some m => decide (m ≤ r.score)
  | none => false

/-- Models the triggered array of src/public/sdk.js lines 166-172. -/
def botTriggers (crit : BlockingCriteria) (r : BotResult) : List Trigger :=
  (if scoreTriggerFires crit r then [Trigger.score r.score] else []) ++
  (if crit.blockBotUA && r.details.isBotUserAgent then [Trigger.botUA] else []) ++
  (if crit.blockScraperISP && r.details.isScraperISP then [Trigger.scraperISP] else []) ++
  (if crit.blockIPAbuser && r.details.isIPAbuser then [Trigger.ipAbuser] else []) ++
  (if crit.blockSuspiciousTraffic && r.details.isSuspiciousTraffic then [Trigger.traffic] else []) ++
  (if crit.blockDataCenterASN && r.details.isDataCenterASN then [Trigger.dataCenter] else [])

/-- The ERROR_CODES table of src/public/sdk.js lines 13-28. -/
def errorCodes (code : String) : Option String :=
  if code = "ERR-BOT-HIGH" then some "Bot score exceeded threshold"
  else if code = "ERR-COUNTRY-BLOCK" then some "Country is in blocked list"
  else if code = "ERR-IP-BLACKLIST" then some "IP address is blacklisted"
  else if code = "ERR-ISP-SCRAPER" then some "ISP identified as scraper service"
  else if code = "ERR-ASN-DATACENTER" then some "Data center ASN detected"
  else if code = "ERR-TRAFFIC-SUSPICIOUS" then some "Suspicious traffic pattern"
  else if code = "ERR-UA-BOT" then some "Bot User-Agent detected"
  else if code = "ERR-IP-ABUSER" then some "IP flagged for abuse"
  else if code = "ERR-DOMAIN-BLOCKED" then some "Domain not in whitelist"
  else if code = "ERR-RATE-LIMIT" then some "Too many requests"
  else if code = "ERR-CONFIG-LOAD" then some "Failed to load configuration"
  else if code = "ERR-BOT-DETECT" then some "Bot detection API error"
  else if code = "ERR-GEOIP" then some "GeoIP lookup failed"
  else if code = "ERR-UNKNOWN" then some "Unknown security violation"
  else none

/-- The decision outcome of evaluateRules: code and reason are absent when
not blocked. -/
structure Decision where
  blocked : Bool
  code : Option String := none
  reason : Option String := none
deriving DecidableEq

/-- A blocking outcome with its reason looked up in ERROR_CODES, as built
at every return site of evaluateRules. -/
def blockedDecision (code : String) : Decision :=
  { blocked := true, code := some code, reason := errorCodes code }

/-- Models evaluateRules, src/public/sdk.js lines 129-182, as a pure
function of the configuration (none when no config is available), the
current hostname, and the resolved IP, country and bot-detection result.
The bot-detection branch blocks exactly when botDetectionEnabled holds and
the triggered array is non-empty, with the code chosen by getErrorCode. -/
def evaluateRules (cfg : Option SdkConfig) (host ip country : String)
    (botResult : BotResult) : Decision :=
  match cfg with
  | none => { blocked := false }
  | some c =>
    if domainBlocked c host then blockedDecision "ERR-DOMAIN-BLOCKED"
    else if ipBlacklisted c ip then blockedDecision "ERR-IP-BLACKLIST"
    else if countryBlocked c country then blockedDecision "ERR-COUNTRY-BLOCK"
    else if countryNotAllowed c country then blockedDecision "ERR-COUNTRY-BLOCK"
    else if c.botDetectionEnabled && !(botTriggers (criteriaOf c) botResult).isEmpty then
      blockedDecision (getErrorCode c botResult country ip)
    else { blocked := false }

/-! ## Lookup wrappers and their fallbacks (src/public/sdk.js) -/

/-- Models getIP, src/public/sdk.js lines 34-42: the fetched IP on
success, the loopback literal on failure. -/
def getIP (res : Except Unit String) : String :=
  match res with
  | Except.ok ip => ip
  | Except.error _ => "127.0.0.1"

/-- Models checkGeoIP, src/public/sdk.js lines 77-90: data.country with a
falsy-to-Unknown fallback on success, Unknown on failure. -/
def checkGeoIP (res : Except Unit (Option String)) : String :=
  match res with
  | Except.ok (some c) => if c = "" then "Unknown" else c
  | Except.ok none => "Unknown"
  | Except.error _ => "Unknown"

/-- The no-bot fallback result of src/public/sdk.js line 107: score 0 and
an empty details object. -/
def noBotResult : BotResult := ⟨0, ⟨false, false, false, false, false⟩⟩

/-- Models checkBotDetection, src/public/sdk.js lines 92-109: the fetched
result on success, the no-bot fallback on failure. -/
def checkBotDetection (res : Except Unit BotResult) : BotResult :=
  match res with
  | Except.ok r => r
  | Except.error _ => noBotResult

/-- One evaluation cycle: the three lookups run through their fallback
wrappers and the results fed to evaluateRules, as in src/public/sdk.js
lines 135-137 and 163. -/
def runEvaluation (cfg : Option SdkConfig) (host : String)
    (ipRes : Except Unit String) (geoRes : Except Unit (Option String))
    (botRes : Except Unit BotResult) : Decision :=
  evaluateRules cfg host (getIP ipRes) (checkGeoIP geoRes) (checkBotDetection botRes)

/-! ## Helper lemmas -/

theorem isPrefixOf_append_self (l t : List Char) : l.isPrefixOf (l ++ t) = true := by
  induction l with
  | nil => simp [List.isPrefixOf]
  | cons a l ih => simp [List.isPrefixOf, ih]

theorem hasBearer_bearer_append (t : String) :
    hasBearer (some ("Bearer " ++ t)) = true := by
  simp only [hasBearer, startsWithStr, String.data_append]
  exact isPrefixOf_append_self _ _

theorem getField_removeField_self (o : JsObj) (k : String) :
    getField (removeField o k) k = none := by
  induction o with
  | nil => rfl
  | cons p rest ih =>
    obtain ⟨k₀, v₀⟩ := p
    by_cases h : k₀ = k
    · simpa [removeField, h] using ih
    · simpa [removeField, getField, h] using ih

theorem getField_removeField_ne (o : JsObj) (k k' : String) (h : k' ≠ k) :
    getField (removeField o k) k' = getField o k' := by
  induction o with
  | nil => rfl
  | cons p rest ih =>
    obtain ⟨k₀, v₀⟩ := p
    simp only [removeField, getField]
    by_cases h₀ : k₀ = k
    · rw [if_pos h₀, ih]
      have h₁ : k₀ ≠ k' := fun hc => h (hc ▸ h₀)
      rw [if_neg h₁]
    · rw [if_neg h₀]
      simp only [getField]
      by_cases h₁ : k₀ = k'
      · rw [if_pos h₁, if_pos h₁]
      · rw [if_neg h₁, if_neg h₁, ih]

theorem getField_setField_self (o : JsObj) (k : String) (v : Option JVal) :
    getField (setField o k v) k = v := by
  cases v with
  | some x => simp [setField, getField]
  | none => simpa [setField] using getField_removeField_self o k

theorem getField_setField_ne (o : JsObj) (k k' : String) (v : Option JVal)
    (h : k' ≠ k) : getField (setField o k v) k' = getField o k' := by
  cases v with
  | some x =>
    have : k ≠ k' := fun hc => h hc.symm
    simpa [setField, getField, this] using getField_removeField_ne o k k' h
  | none => simpa [setField] using getField_removeField_ne o k k' h

/-! ## Claim theorems -/

/-- C10: when no configuration is available, evaluateRules returns
blocked = false without consulting any rule: the gate fails open. -/
theorem no_config_fails_open (host ip country : String) (r : BotResult) :
    evaluateRules none host ip country r = { blocked := false } := rfl

/-- C8: a failure of any of the three lookups yields the fixed safe
default instead of an error: IP lookup failure yields the literal
127.0.0.1, geoip failure yields country Unknown, and bot-detection
failure yields the no-bot result (score 0, empty details).  The last two
conjuncts state that the evaluation cycle is total on every combination of
lookup outcomes and, under all-failed lookups, is the evaluation of the
rules at exactly those defaults: no lookup error is ever propagated. -/
theorem lookup_failures_safe_defaults (cfg : Option SdkConfig) (host : String) :
    getIP (Except.error ()) = "127.0.0.1" ∧
    checkGeoIP (Except.error ()) = "Unknown" ∧
    checkBotDetection (Except.error ()) = noBotResult ∧
    (∀ ipRes geoRes botRes, runEvaluation cfg host ipRes geoRes botRes =
      evaluateRules cfg host (getIP ipRes) (checkGeoIP geoRes) (checkBotDetection botRes)) ∧
    runEvaluation cfg host (Except.error ()) (Except.error ()) (Except.error ()) =
      evaluateRules cfg host "127.0.0.1" "Unknown" noBotResult :=
  ⟨rfl, rfl, rfl, fun _ _ _ => rfl, rfl⟩

/-- C1: for every configuration with allowAllDomains = false and a
non-empty allowedDomains list none of whose entries occurs as a substring
of the current hostname, evaluateRules returns blocked = true with code
ERR-DOMAIN-BLOCKED.  The IP, country, bot result and all remaining
configuration fields are universally quantified, so the domain gate is
decided before the IP-blacklist, country and bot-detection rules and their
inputs cannot change the outcome. -/
theorem domain_gate_decided_first (c : SdkConfig) (host ip country : String)
    (r : BotResult) (ds : List String)
    (hAll : c.allowAllDomains = false)
    (hds : c.allowedDomains = some ds)
    (hne : ds ≠ [])
    (hsub : ∀ d ∈ ds, strIncludes host d = false) :
    evaluateRules (some c) host ip country r =
      { blocked := true, code := some "ERR-DOMAIN-BLOCKED",
        reason := some "Domain not in whitelist" } := by
  have hEmpty : ds.isEmpty = false := by simpa using hne
  have hany : ds.any (fun d => strIncludes host d) = false :=
    List.any_eq_false.mpr (fun d hd => by simp [hsub d hd])
  have hdom : domainBlocked c host = true := by
    simp [domainBlocked, hAll, hds, hEmpty, hany]
  have hstep : evaluateRules (some c) host ip country r =
      blockedDecision "ERR-DOMAIN-BLOCKED" := by
    simp [evaluateRules, hdom]
  rw [hstep]
  decide

/-- Witness for C1 at a concrete configuration and hostname. -/
theorem domain_gate_decided_first_witness :
    evaluateRules
      (some ⟨false, some ["allowed.example"], none, none, none, false, none⟩)
      "visitor.example" "203.0.113.9" "US" noBotResult =
      { blocked := true, code := some "ERR-DOMAIN-BLOCKED",
        reason := some "Domain not in whitelist" } :=
  domain_gate_decided_first _ _ _ _ _ ["allowed.example"] rfl rfl
    (by decide) (by decide)

/-- C5: for every evaluation request whose IP is a member of ipBlacklist,
with the domain gate passing, evaluateRules returns blocked = true with
code ERR-IP-BLACKLIST; the country, the bot result and the remaining
configuration fields are universally quantified, so they cannot affect the
outcome. -/
theorem ip_blacklist_blocks (c : SdkConfig) (host ip country : String)
    (r : BotResult) (l : List String)
    (hdom : domainBlocked c host = false)
    (hl : c.ipBlacklist = some l)
    (hmem : ip ∈ l) :
    evaluateRules (some c) host ip country r =
      { blocked := true, code := some "ERR-IP-BLACKLIST",
        reason := some "IP address is blacklisted" } := by
  have hip : ipBlacklisted c ip = true := by
    simp [ipBlacklisted, hl, List.contains, hmem]
  have hstep : evaluateRules (some c) host ip country r =
      blockedDecision "ERR-IP-BLACKLIST" := by
    simp [evaluateRules, hdom, hip]
  rw [hstep]
  decide

/-- Witness for C5 at a concrete blacklisted IP. -/
theorem ip_blacklist_blocks_witness :
    evaluateRules
      (some ⟨true, none, some ["192.168.1.1"], some ["US"], some ["US"], true, none⟩)
      "visitor.example" "192.168.1.1" "US" noBotResult =
      { blocked := true, code := some "ERR-IP-BLACKLIST",
        reason := some "IP address is blacklisted" } :=
  ip_blacklist_blocks _ _ _ _ _ ["192.168.1.1"] (by decide) rfl (by decide)

/-- C6: with the domain gate and the IP blacklist passing, a country that
is a member of blockedCountries yields blocked = true with code
ERR-COUNTRY-BLOCK, and so does a non-empty allowedCountries list not
containing the country.  The blocked-list disjunct needs no assumption on
allowedCountries and the allow-list disjunct none on blockedCountries, and
both land on the same outcome, matching the source order in which the
blocked-list check is decided first. -/
theorem country_rules_block (c : SdkConfig) (host ip country : String)
    (r : BotResult)
    (hdom : domainBlocked c host = false)
    (hip : ipBlacklisted c ip = false)
    (h : (∃ l, c.blockedCountries = some l ∧ country ∈ l) ∨
         (∃ l, c.allowedCountries = some l ∧ l ≠ [] ∧ country ∉ l)) :
    evaluateRules (some c) host ip country r =
      { blocked := true, code := some "ERR-COUNTRY-BLOCK",
        reason := some "Country is in blocked list" } := by
  have hkey : countryBlocked c country = true ∨
      (countryBlocked c country = false ∧ countryNotAllowed c country = true) := by
    rcases h with ⟨l, hl, hmem⟩ | ⟨l, hl, hne, hnm⟩
    · exact Or.inl (by simp [countryBlocked, hl, List.contains, hmem])
    · by_cases hb : countryBlocked c country = true
      · exact Or.inl hb
      · refine Or.inr ⟨by simpa using hb, ?_⟩
        have hEmpty : l.isEmpty = false := by simpa using hne
        simp [countryNotAllowed, hl, hEmpty, List.contains, hnm]
  have hstep : evaluateRules (some c) host ip country r =
      blockedDecision "ERR-COUNTRY-BLOCK" := by
    rcases hkey with hb | ⟨hb, ha⟩
    · simp [evaluateRules, hdom, hip, hb]
    · simp [evaluateRules, hdom, hip, hb, ha]
  rw [hstep]
  decide

/-- Witness for C6 at a concrete blocked country. -/
theorem country_rules_block_witness :
    evaluateRules (some ⟨true, none, none, some ["Russia"], none, false, none⟩)
      "visitor.example" "203.0.113.9" "Russia" noBotResult =
      { blocked := true, code := some "ERR-COUNTRY-BLOCK",
        reason := some "Country is in blocked list" } :=
  country_rules_block _ _ _ _ _ (by decide) (by decide)
    (Or.inl ⟨["Russia"], rfl, by decide⟩)

/-- C9: in the bot-detection branch, with the IP blacklist and both
country rules passing, blockBotUA and blockDataCenterASN enabled and both
the isBotUserAgent and isDataCenterASN detail flags set, the returned code
is ERR-UA-BOT: the UA-bot sub-code precedes the data-center-ASN sub-code
in the fixed secondary precedence of getErrorCode. -/
theorem ua_bot_precedes_asn (c : SdkConfig) (crit : BlockingCriteria)
    (host ip country : String) (r : BotResult)
    (hdom : domainBlocked c host = false)
    (hip : ipBlacklisted c ip = false)
    (hcb : countryBlocked c country = false)
    (hca : countryNotAllowed c country = false)
    (hbot : c.botDetectionEnabled = true)
    (hcrit : c.blockingCriteria = some crit)
    (hUA : crit.blockBotUA = true)
    (hASN : crit.blockDataCenterASN = true)
    (rUA : r.details.isBotUserAgent = true)
    (rASN : r.details.isDataCenterASN = true) :
    evaluateRules (some c) host ip country r =
      { blocked := true, code := some "ERR-UA-BOT",
        reason := some "Bot User-Agent detected" } := by
  have hcr : criteriaOf c = crit := by simp [criteriaOf, hcrit]
  have hmemT : Trigger.botUA ∈ botTriggers crit r := by
    simp [botTriggers, hUA, rUA]
  have htrig : (botTriggers (criteriaOf c) r).isEmpty = false := by
    rw [hcr]
    simpa using List.ne_nil_of_mem hmemT
  have hcode : getErrorCode c r country ip = "ERR-UA-BOT" := by
    simp [getErrorCode, hip, hcb, hca, hcr, hUA, rUA]
  have hstep : evaluateRules (some c) host ip country r =
      blockedDecision "ERR-UA-BOT" := by
    simp [evaluateRules, hdom, hip, hcb, hca, hbot, htrig, hcode]
  rw [hstep]
  decide

/-- Witness for C9 at a concrete configuration and bot result with both
the UA and data-center flags set. -/
theorem ua_bot_precedes_asn_witness :
    evaluateRules
      (some ⟨true, none, none, none, none, true,
        some ⟨none, true, false, false, false, true⟩⟩)
      "visitor.example" "203.0.113.9" "US"
      ⟨0, ⟨true, false, false, false, true⟩⟩ =
      { blocked := true, code := some "ERR-UA-BOT",
        reason := some "Bot User-Agent detected" } :=
  ua_bot_precedes_asn _ ⟨none, true, false, false, false, true⟩ _ _ _ _
    (by decide) (by decide) (by decide) (by decide) rfl rfl rfl rfl
    (by decide) (by decide)

/-- C2 counterexample: a configuration whose blockingCriteria omits
minScore, with bot detection enabled and every other rule passing, and a
bot result with score 0.9 and all detail flags false, yields
blocked = false, not the blocked = true with ERR-BOT-HIGH that the claim
predicts: the trigger comparison in evaluateRules applies no 0.7 default
(a JavaScript comparison against undefined is false); the default exists
only in getErrorCode, which is unreachable when nothing triggers. -/
theorem minScore_absent_no_block_cex :
    evaluateRules
      (some ⟨true, none, none, none, none, true,
        some ⟨none, false, false, false, false, false⟩⟩)
      "site.example" "203.0.113.5" "US"
      ⟨(9 : ℚ) / 10, ⟨false, false, false, false, false⟩⟩ =
      { blocked := false } := by decide

/-- C2 amended: in the bot-detection step the score criterion fires
exactly when blockingCriteria carries a minScore and the bot score is at
least that value; when minScore is absent the score criterion never fires,
so a configuration whose blockingCriteria omits minScore does not block a
bot result with all detail flags false, whatever its score.  The 0.7
default appears only in the secondary pass of getErrorCode, not in the
trigger computation of evaluateRules. -/
theorem score_criterion_semantics (c : SdkConfig) (crit : BlockingCriteria)
    (host ip country : String) (r : BotResult)
    (hcrit : c.blockingCriteria = some crit)
    (hbot : c.botDetectionEnabled = true)
    (hdom : domainBlocked c host = false)
    (hip : ipBlacklisted c ip = false)
    (hcb : countryBlocked c country = false)
    (hca : countryNotAllowed c country = false) :
    (scoreTriggerFires crit r = true ↔ ∃ m, crit.minScore = some m ∧ m ≤ r.score) ∧
    (crit.minScore = none → r.details = ⟨false, false, false, false, false⟩ →
      evaluateRules (some c) host ip country r = { blocked := false }) := by
  constructor
  · cases hm : crit.minScore with
    | none => simp [scoreTriggerFires, hm]
    | some m => simp [scoreTriggerFires, hm]
  · intro hmin hdet
    have hcr : criteriaOf c = crit := by simp [criteriaOf, hcrit]
    have htrig : botTriggers (criteriaOf c) r = [] := by
      rw [hcr]
      simp [botTriggers, scoreTriggerFires, hmin, hdet]
    simp [evaluateRules, hdom, hip, hcb, hca, htrig]

/-- Witness for C2 amended: with minScore absent, enabled flag criteria
but an all-false bot result of score 0.9, the visitor is not blocked. -/
theorem score_criterion_semantics_witness :
    evaluateRules
      (some ⟨true, none, none, none, none, true,
        some ⟨none, true, true, true, false, true⟩⟩)
      "site.example" "203.0.113.5" "US"
      ⟨(9 : ℚ) / 10, ⟨false, false, false, false, false⟩⟩ =
      { blocked := false } :=
  (score_criterion_semantics _ ⟨none, true, true, true, false, true⟩ _ _ _ _
    rfl rfl (by decide) (by decide) (by decide) (by decide)).2 rfl rfl

/-- C3: both admin config endpoints respond 401 with error ERR-NO-AUTH
exactly when the Authorization header is absent or does not start with
the Bearer prefix; every header of the form Bearer followed by anything is
authorized, and the response is independent of the token value, which is
never compared against any issued token (the model keeps no issued-token
state, mirroring the source). -/
theorem admin_bearer_gate (auth : Option String) (cfg body old : JsObj)
    (now : String) :
    ((adminConfigGet auth cfg).status = 401 ∧
        (adminConfigGet auth cfg).body = errNoAuthBody ↔ hasBearer auth = false) ∧
    ((adminConfigPost auth body old now).1.status = 401 ∧
        (adminConfigPost auth body old now).1.body = errNoAuthBody ↔
      hasBearer auth = false) ∧
    (∀ t, adminConfigGet (some ("Bearer " ++ t)) cfg = ⟨200, cfg⟩) ∧
    (∀ t₁ t₂, adminConfigPost (some ("Bearer " ++ t₁)) body old now =
      adminConfigPost (some ("Bearer " ++ t₂)) body old now) := by
  refine ⟨?_, ?_, ?_, ?_⟩
  · cases hb : hasBearer auth <;> simp [adminConfigGet, hb]
  · cases hb : hasBearer auth <;> simp [adminConfigPost, hb]
  · intro t
    simp [adminConfigGet, hasBearer_bearer_append]
  · intro t₁ t₂
    simp [adminConfigPost, hasBearer_bearer_append]

/-- C4: the response of the public config endpoint is built from a fixed
field allow-list that excludes adminPassword, so for every stored
configuration object, including any reachable through admin writes, the
adminPassword key never occurs in the response. -/
theorem public_config_no_adminPassword (cfg : JsObj) :
    "adminPassword" ∉ (apiConfig cfg).map Prod.fst := by
  intro hmem
  obtain ⟨⟨k, v⟩, hp, hk⟩ := List.mem_map.mp hmem
  obtain ⟨k₀, hk₀, hf⟩ := List.mem_filterMap.mp hp
  cases hg : getField cfg k₀ with
  | none => rw [hg] at hf; simp at hf
  | some w =>
    rw [hg] at hf
    simp at hf
    have hkey : k = "adminPassword" := by simpa using hk
    have hkk : k₀ = "adminPassword" := hf.1.trans hkey
    rw [hkk] at hk₀
    revert hk₀
    decide

/-- C7 counterexample: a write whose body supplies the empty string as
adminPassword does not store the empty string; the stored password stays
the previous one, because the source merges with a truthiness test and the
empty string is falsy.  The claim that a supplied value always replaces
the stored password therefore fails. -/
theorem admin_password_empty_write_cex :
    getField
      (adminConfigPost (some "Bearer tok") [("adminPassword", JVal.str "")]
        [("adminPassword", JVal.str "oldpass")] "2024-01-01T00:00:00Z").2
      "adminPassword" = some (JVal.str "oldpass") ∧
    JVal.str "oldpass" ≠ JVal.str "" := by
  constructor
  · rfl
  · intro h
    simp only [JVal.str.injEq] at h
    exact absurd h (by decide)

/-- C7 amended: for every authorized admin config write, a body without an
adminPassword field (or more generally with a falsy one) keeps the
previously stored password, and a body supplying a truthy value, such as
any non-empty string, replaces the stored password with it; on every
loadConfig the environment-sourced password is re-applied over whatever
the file holds. -/
theorem admin_password_write_semantics (auth : Option String)
    (body old fileCfg : JsObj) (now : String) (env : Option String)
    (hauth : hasBearer auth = true) :
    (getField body "adminPassword" = none →
      getField (adminConfigPost auth body old now).2 "adminPassword" =
        getField old "adminPassword") ∧
    (∀ v, getField body "adminPassword" = some v → truthy (some v) = true →
      getField (adminConfigPost auth body old now).2 "adminPassword" = some v) ∧
    getField (loadConfig fileCfg env) "adminPassword" =
      some (JVal.str (getAdminPassword env)) := by
  have hne : ("adminPassword" : String) ≠ "lastUpdated" := by decide
  have hsaved : ∀ v : Option JVal,
      getField (setField (setField body "adminPassword" v) "lastUpdated"
        (some (JVal.str now))) "adminPassword" = v := by
    intro v
    rw [getField_setField_ne _ _ _ _ hne, getField_setField_self]
  refine ⟨?_, ?_, ?_⟩
  · intro hnone
    simp only [adminConfigPost, hauth, if_true, truthy, hnone]
    exact hsaved _
  · intro v hv htr
    simp only [adminConfigPost, hauth, if_true, hv, htr, if_pos]
    exact hsaved _
  · exact getField_setField_self _ _ _

/-- Witness for C7 amended: a write without an adminPassword field keeps
the stored password. -/
theorem admin_password_write_semantics_witness :
    getField
      (adminConfigPost (some "Bearer tok") [("finalUrl", JVal.str "https://x.example")]
        [("adminPassword", JVal.str "oldpass")] "2024-01-01T00:00:00Z").2
      "adminPassword" = some (JVal.str "oldpass") :=
  (admin_password_write_semantics (some "Bearer tok")
    [("finalUrl", JVal.str "https://x.example")]
    [("adminPassword", JVal.str "oldpass")] [] "2024-01-01T00:00:00Z" none
    (by decide)).1 rfl

end GeoIPCC
